import Mathlib

/-!
Shallow embedding of `src/routes/verify_async.rs` from the
solana-verified-programs-api repository: the asynchronous job-dispatch
handler `verify_async`, its deduplication logic, and the detached
background completion task. Store operations are modelled as functions
returning `Except`, and the handler is a pure function whose `Outcome`
records the HTTP response produced (or a panic, for the `.unwrap()` on
line 40 of the source), the job record that was successfully persisted,
and the worker spawn with its arguments.
-/

namespace VerifiedPrograms

/-- Modelled from the spec: store and worker errors are opaque; a string
stands in for them. -/
abbrev DbError := String

/-- Modelled from the spec: the caller-supplied `VerificationRequest`
payload (`SolanaProgramBuildParams` in `crate::models`, whose source file
is not in the snapshot): repository location and program identifier plus
the optional commit identifier, library name, build flag, base image,
mount path and extra build arguments, exactly the fields the handler
copies on lines 18-26. -/
structure SolanaProgramBuildParams where
  repository : String
  commit_hash : Option String
  program_id : String
  lib_name : Option String
  bpf_flag : Option Bool
  base_image : Option String
  mount_path : Option String
  cargo_args : Option (List String)
  deriving DecidableEq

/-- Modelled from the spec: job status, one of InProgress, Completed,
Failed (`JobStatus` in the missing `crate::models`). -/
inductive JobStatus where
  | InProgress
  | Completed
  | Failed
  deriving DecidableEq

/-- Modelled from the spec: the stored string form of a `JobStatus`
(`impl From<JobStatus> for String` lives in the missing `crate::models`).
The strings are the ones the handler's dedup match on lines 37-93
compares against, including the "in_progess" spelling of the in-progress
status; the spec's dedup policy only holds if the stored form matches
those arms. -/
def JobStatus.toString : JobStatus → String
  | .InProgress => "in_progess"
  | .Completed => "completed"
  | .Failed => "failed"

/-- Modelled from the spec: the persisted `JobRecord`
(`SolanaProgramBuild` in the missing `crate::models`): generated id, a
copy of the request fields, creation timestamp and a status string, the
fields the handler populates on lines 16-28. -/
structure SolanaProgramBuild where
  id : String
  repository : String
  commit_hash : Option String
  program_id : String
  lib_name : Option String
  bpf_flag : Bool
  created_at : Nat
  base_docker_image : Option String
  mount_path : Option String
  cargo_args : Option (List String)
  status : String
  deriving DecidableEq

/-- Modelled from the spec: the stored `VerifiedResult`, keyed by program
identifier: verdict flag, on-chain hash and executable hash, the fields
the handler projects on lines 45-52. -/
structure VerifiedBuild where
  program_id : String
  is_verified : Bool
  on_chain_hash : String
  executable_hash : String
  deriving DecidableEq

/-- Modelled from the spec: the `Status` marker of an error response. -/
inductive Status where
  | Success
  | Error
  deriving DecidableEq

/-- Modelled from the spec: the verification report
(`StatusResponse`) returned for a Completed duplicate. -/
structure StatusResponse where
  is_verified : Bool
  message : String
  on_chain_hash : String
  executable_hash : String
  repo_url : String
  deriving DecidableEq

/-- Modelled from the spec: the acknowledgment (`VerifyResponse`)
carrying a status marker, the tracking identifier and a message. -/
structure VerifyResponse where
  status : JobStatus
  request_id : String
  message : String
  deriving DecidableEq

/-- Modelled from the spec: the error shape (`ErrorResponse`) carrying a
status marker and an error message. -/
structure ErrorResponse where
  status : Status
  error : String
  deriving DecidableEq

/-- Modelled from the spec: `ApiResponse`, the sum of the three response
bodies the handler converts `.into()`. -/
inductive ApiResponse where
  | statusResp : StatusResponse → ApiResponse
  | verify : VerifyResponse → ApiResponse
  | error : ErrorResponse → ApiResponse
  deriving DecidableEq

/-- The HTTP status codes the handler returns. -/
inductive StatusCode where
  | OK
  | CONFLICT
  | INTERNAL_SERVER_ERROR
  deriving DecidableEq

/-- Outward status-code classes named by the spec. -/
inductive StatusClass where
  | success
  | conflict
  | serverError
  deriving DecidableEq

/-- Class of each status code the handler uses. -/
def StatusCode.statusClass : StatusCode → StatusClass
  | .OK => .success
  | .CONFLICT => .conflict
  | .INTERNAL_SERVER_ERROR => .serverError

/-- Modelled from the spec: the Job Record Store interface the handler
uses (`DbClient` in the missing `crate::db`), with each operation a
function of its arguments returning `Except`. `get_verified_build`
returns the record itself on success — absence of a stored result
surfaces as an error — because the handler unwraps the `Result` and
projects fields from the value (lines 40-52). -/
structure DbClient where
  is_build_params_exists_already :
      SolanaProgramBuildParams → Except DbError (Option SolanaProgramBuild)
  get_verified_build : String → Except DbError VerifiedBuild
  insert_build_params : SolanaProgramBuild → Except DbError Unit
  insert_or_update_verified_build : VerifiedBuild → Except DbError Unit
  update_build_status : String → String → Except DbError Unit

/-- The handler either returns a response or panics (the `.unwrap()` on
line 40 when `get_verified_build` errs). -/
inductive HandlerOutput where
  | response : StatusCode → ApiResponse → HandlerOutput
  | panicked : HandlerOutput
  deriving DecidableEq

/-- Observable outcome of one `verify_async` call: the output, the job
record successfully persisted by this call (if any), and the spawned
background worker's arguments (payload and job id), if launched. -/
structure Outcome where
  output : HandlerOutput
  inserted : Option SolanaProgramBuild
  spawned : Option (SolanaProgramBuildParams × String)
  deriving DecidableEq

/-- Lines 16-28: the candidate job record built from the payload, the
freshly generated uuid and the current time, with status
`JobStatus::InProgress.into()`. -/
def make_verify_build_data (uuid : String) (now : Nat)
    (payload : SolanaProgramBuildParams) : SolanaProgramBuild :=
  { id := uuid
    repository := payload.repository
    commit_hash := payload.commit_hash
    program_id := payload.program_id
    lib_name := payload.lib_name
    bpf_flag := payload.bpf_flag.getD false
    created_at := now
    base_docker_image := payload.base_image
    mount_path := payload.mount_path
    cargo_args := payload.cargo_args
    status := JobStatus.toString .InProgress }

/-- Lines 31-34: the dedup lookup with `.unwrap_or(None)` — a store
error degrades to "no duplicate found". -/
def lookup_unwrapped (db : DbClient) (payload : SolanaProgramBuildParams) :
    Option SolanaProgramBuild :=
  match db.is_build_params_exists_already payload with
  | .ok found => found
  | .error _ => none

/-- Whether a dedup match short-circuits the handler: only the three
status strings matched on lines 38, 63 and 77 do; anything else falls
through the `_ => nop` arm. -/
def reusable_duplicate (found : Option SolanaProgramBuild) : Bool :=
  match found with
  | none => false
  | some r => r.status = "completed" || r.status = "in_progess" || r.status = "failed"

/-- Lines 96-144: insert the new job record; on failure return the
internal error without spawning, on success spawn the worker with the
payload and the record's id and acknowledge with the uuid. -/
def insert_and_dispatch (db : DbClient) (uuid : String)
    (payload : SolanaProgramBuildParams)
    (verify_build_data : SolanaProgramBuild) : Outcome :=
  match db.insert_build_params verify_build_data with
  | .error _ =>
      { output := .response .INTERNAL_SERVER_ERROR (.error
          { status := .Error
            error := "An unforeseen database error has occurred, preventing the initiation of the build process. Kindly try again after some time." })
        inserted := none
        spawned := none }
  | .ok _ =>
      { output := .response .OK (.verify
          { status := .InProgress
            request_id := uuid
            message := "Build verification started" })
        inserted := some verify_build_data
        spawned := some (payload, verify_build_data.id) }

/-- The `verify_async` handler, lines 11-145. `uuid` stands for the
generated `Uuid::new_v4()` and `now` for `Utc::now()`. -/
def verify_async (db : DbClient) (uuid : String) (now : Nat)
    (payload : SolanaProgramBuildParams) : Outcome :=
  let verify_build_data := make_verify_build_data uuid now payload
  match lookup_unwrapped db payload with
  | some respose =>
      if respose.status = "completed" then
        match db.get_verified_build respose.program_id with
        | .error _ => { output := .panicked, inserted := none, spawned := none }
        | .ok verified_build =>
            { output := .response .OK (.statusResp
                { is_verified := verified_build.is_verified
                  message :=
                    if verified_build.is_verified then "On chain program verified"
                    else "On chain program not verified"
                  on_chain_hash := verified_build.on_chain_hash
                  executable_hash := verified_build.executable_hash
                  repo_url :=
                    match verify_build_data.commit_hash with
                    | some hash => verify_build_data.repository ++ "/commit/" ++ hash
                    | none => verify_build_data.repository })
              inserted := none
              spawned := none }
      else if respose.status = "in_progess" then
        { output := .response .OK (.verify
            { status := .InProgress
              request_id := uuid
              message := "Build verification already in progress" })
          inserted := none
          spawned := none }
      else if respose.status = "failed" then
        { output := .response .CONFLICT (.error
            { status := .Error
              error := "The previous request has already been processed, but unfortunately, the verification process has failed." })
          inserted := none
          spawned := none }
      else
        insert_and_dispatch db uuid payload verify_build_data
  | none => insert_and_dispatch db uuid payload verify_build_data

/-- One attempted store write of the background completion task. -/
inductive BgOp where
  | upsertVerified : VerifiedBuild → BgOp
  | updateStatus : String → String → BgOp
  deriving DecidableEq

/-- Lines 114-132: the spawned completion task, as the list of store
writes it attempts given the worker's result; each write's `Except`
result is discarded (`let _ = ...` in the source). -/
def background_task (db : DbClient) (id : String)
    (workerResult : Except String VerifiedBuild) : List BgOp :=
  match workerResult with
  | .ok res =>
      let _ := db.insert_or_update_verified_build res
      let _ := db.update_build_status id (JobStatus.toString .Completed)
      [BgOp.upsertVerified res, BgOp.updateStatus id (JobStatus.toString .Completed)]
  | .error _ =>
      let _ := db.update_build_status id (JobStatus.toString .Failed)
      [BgOp.updateStatus id (JobStatus.toString .Failed)]

/-! Concrete sample data used by the witnesses and counterexamples. -/

/-- The concrete request of the spec's test scenarios. -/
def samplePayload : SolanaProgramBuildParams :=
  { repository := "https://x/y"
    commit_hash := some "abc123"
    program_id := "P1"
    lib_name := some "l"
    bpf_flag := none
    base_image := none
    mount_path := none
    cargo_args := none }

/-- A stored job record matching `samplePayload`, with a given status. -/
def sampleDup (st : String) : SolanaProgramBuild :=
  { id := "j1"
    repository := "https://x/y"
    commit_hash := some "abc123"
    program_id := "P1"
    lib_name := some "l"
    bpf_flag := false
    created_at := 0
    base_docker_image := none
    mount_path := none
    cargo_args := none
    status := st }

/-- The stored verified result of the spec's success scenario. -/
def sampleVerified : VerifiedBuild :=
  { program_id := "P1"
    is_verified := true
    on_chain_hash := "h1"
    executable_hash := "h1" }

/-- A request with empty repository and program identifier. -/
def emptyPayload : SolanaProgramBuildParams :=
  { repository := ""
    commit_hash := none
    program_id := ""
    lib_name := none
    bpf_flag := none
    base_image := none
    mount_path := none
    cargo_args := none }

/-- A concrete store whose three read/insert operations return the given
constants. -/
def dbWith (found : Except DbError (Option SolanaProgramBuild))
    (verified : Except DbError VerifiedBuild)
    (insertRes : Except DbError Unit) : DbClient :=
  { is_build_params_exists_already := fun _ => found
    get_verified_build := fun _ => verified
    insert_build_params := fun _ => insertRes
    insert_or_update_verified_build := fun _ => .ok ()
    update_build_status := fun _ _ => .ok () }

/-- Helper: when the dedup lookup yields nothing reusable — no match, a
lookup error, or a match whose status string is none of the three matched
arms — the handler falls through to the insert-and-dispatch path. -/
theorem dispatch_of_no_reusable (db : DbClient) (uuid : String) (now : Nat)
    (payload : SolanaProgramBuildParams)
    (hdup : reusable_duplicate (lookup_unwrapped db payload) = false) :
    verify_async db uuid now payload =
      insert_and_dispatch db uuid payload (make_verify_build_data uuid now payload) := by
  rcases hl : lookup_unwrapped db payload with _ | r
  · simp [verify_async, hl]
  · rw [hl] at hdup
    simp only [reusable_duplicate, Bool.or_eq_false_iff, decide_eq_false_iff_not] at hdup
    obtain ⟨⟨h1, h2⟩, h3⟩ := hdup
    simp [verify_async, hl, h1, h2, h3]

/-- C2: a request matching an existing job whose stored status is the
InProgress string gets the "already in progress" acknowledgment (success
class) carrying the freshly generated tracking identifier; no record is
inserted and no worker is spawned. -/
theorem inprogress_duplicate_acknowledged (db : DbClient) (uuid : String) (now : Nat)
    (payload : SolanaProgramBuildParams) (dup : SolanaProgramBuild)
    (hfind : db.is_build_params_exists_already payload = .ok (some dup))
    (hstatus : dup.status = JobStatus.toString .InProgress) :
    verify_async db uuid now payload =
      { output := .response .OK (.verify
          { status := .InProgress
            request_id := uuid
            message := "Build verification already in progress" })
        inserted := none
        spawned := none } ∧
    StatusCode.statusClass .OK = .success := by
  refine ⟨?_, rfl⟩
  simp [verify_async, lookup_unwrapped, hfind, hstatus, JobStatus.toString]

/-- C2 witness: the concrete in-progress duplicate scenario. -/
theorem inprogress_duplicate_acknowledged_witness :
    verify_async (dbWith (.ok (some (sampleDup "in_progess"))) (.ok sampleVerified) (.ok ()))
        "u2" 0 samplePayload =
      { output := .response .OK (.verify
          { status := .InProgress
            request_id := "u2"
            message := "Build verification already in progress" })
        inserted := none
        spawned := none } ∧
    StatusCode.statusClass .OK = .success :=
  inprogress_duplicate_acknowledged _ "u2" 0 samplePayload (sampleDup "in_progess") rfl rfl

/-- C3: a failing dedup lookup is absorbed by `.unwrap_or(None)`: the
handler behaves exactly as with a store that found no duplicate, and
proceeds to the insert-and-dispatch path instead of surfacing the error. -/
theorem lookup_error_fails_open (db : DbClient) (uuid : String) (now : Nat)
    (payload : SolanaProgramBuildParams) (e : DbError)
    (hfind : db.is_build_params_exists_already payload = .error e) :
    verify_async db uuid now payload =
      insert_and_dispatch db uuid payload (make_verify_build_data uuid now payload) ∧
    verify_async db uuid now payload =
      verify_async { db with is_build_params_exists_already := fun _ => Except.ok none }
        uuid now payload := by
  have h1 : lookup_unwrapped db payload = none := by
    simp [lookup_unwrapped, hfind]
  have hmain : verify_async db uuid now payload =
      insert_and_dispatch db uuid payload (make_verify_build_data uuid now payload) := by
    simp [verify_async, h1]
  refine ⟨hmain, ?_⟩
  rw [hmain]
  have h2 : lookup_unwrapped
      { db with is_build_params_exists_already := fun _ => Except.ok none } payload = none := rfl
  simp [verify_async, h2]
  rfl

/-- C3 witness: a store whose lookup always errs. -/
theorem lookup_error_fails_open_witness :
    verify_async (dbWith (.error "store down") (.ok sampleVerified) (.ok ()))
        "u3" 0 samplePayload =
      insert_and_dispatch (dbWith (.error "store down") (.ok sampleVerified) (.ok ()))
        "u3" samplePayload (make_verify_build_data "u3" 0 samplePayload) ∧
    verify_async (dbWith (.error "store down") (.ok sampleVerified) (.ok ()))
        "u3" 0 samplePayload =
      verify_async
        { dbWith (.error "store down") (.ok sampleVerified) (.ok ()) with
            is_build_params_exists_already := fun _ => Except.ok none }
        "u3" 0 samplePayload :=
  lookup_error_fails_open _ "u3" 0 samplePayload "store down" rfl

/-- C4: a Completed duplicate with a stored verified result yields the
verification report: flag and hashes from the stored result, the message
determined by the flag, and the repo reference commit-qualified exactly
when the request supplied a commit identifier. -/
theorem completed_duplicate_reports (db : DbClient) (uuid : String) (now : Nat)
    (payload : SolanaProgramBuildParams) (dup : SolanaProgramBuild) (vb : VerifiedBuild)
    (hfind : db.is_build_params_exists_already payload = .ok (some dup))
    (hstatus : dup.status = JobStatus.toString .Completed)
    (hget : db.get_verified_build dup.program_id = .ok vb) :
    verify_async db uuid now payload =
      { output := .response .OK (.statusResp
          { is_verified := vb.is_verified
            message :=
              if vb.is_verified then "On chain program verified"
              else "On chain program not verified"
            on_chain_hash := vb.on_chain_hash
            executable_hash := vb.executable_hash
            repo_url :=
              match payload.commit_hash with
              | some hash => payload.repository ++ "/commit/" ++ hash
              | none => payload.repository })
        inserted := none
        spawned := none } := by
  simp [verify_async, lookup_unwrapped, hfind, hstatus, JobStatus.toString, hget,
    make_verify_build_data]

/-- C4 witness: the spec's concrete success scenario, commit supplied. -/
theorem completed_duplicate_reports_witness :
    verify_async (dbWith (.ok (some (sampleDup "completed"))) (.ok sampleVerified) (.ok ()))
        "u4" 0 samplePayload =
      { output := .response .OK (.statusResp
          { is_verified := sampleVerified.is_verified
            message :=
              if sampleVerified.is_verified then "On chain program verified"
              else "On chain program not verified"
            on_chain_hash := sampleVerified.on_chain_hash
            executable_hash := sampleVerified.executable_hash
            repo_url :=
              match samplePayload.commit_hash with
              | some hash => samplePayload.repository ++ "/commit/" ++ hash
              | none => samplePayload.repository })
        inserted := none
        spawned := none } :=
  completed_duplicate_reports _ "u4" 0 samplePayload (sampleDup "completed")
    sampleVerified rfl rfl rfl

/-- C5: a Failed duplicate yields the conflict response (conflict class),
no record is inserted and no worker is spawned — no automatic retry. -/
theorem failed_duplicate_conflicts (db : DbClient) (uuid : String) (now : Nat)
    (payload : SolanaProgramBuildParams) (dup : SolanaProgramBuild)
    (hfind : db.is_build_params_exists_already payload = .ok (some dup))
    (hstatus : dup.status = JobStatus.toString .Failed) :
    verify_async db uuid now payload =
      { output := .response .CONFLICT (.error
          { status := .Error
            error := "The previous request has already been processed, but unfortunately, the verification process has failed." })
        inserted := none
        spawned := none } ∧
    StatusCode.statusClass .CONFLICT = .conflict := by
  refine ⟨?_, rfl⟩
  simp [verify_async, lookup_unwrapped, hfind, hstatus, JobStatus.toString]

/-- C5 witness: the concrete failed-duplicate scenario. -/
theorem failed_duplicate_conflicts_witness :
    verify_async (dbWith (.ok (some (sampleDup "failed"))) (.ok sampleVerified) (.ok ()))
        "u5" 0 samplePayload =
      { output := .response .CONFLICT (.error
          { status := .Error
            error := "The previous request has already been processed, but unfortunately, the verification process has failed." })
        inserted := none
        spawned := none } ∧
    StatusCode.statusClass .CONFLICT = .conflict :=
  failed_duplicate_conflicts _ "u5" 0 samplePayload (sampleDup "failed") rfl rfl

/-- C6: with no reusable duplicate, a failing insert yields the internal
error response (server-error class), no record is persisted and no worker
is spawned. -/
theorem insert_failure_internal_error (db : DbClient) (uuid : String) (now : Nat)
    (payload : SolanaProgramBuildParams) (e : DbError)
    (hdup : reusable_duplicate (lookup_unwrapped db payload) = false)
    (hins : db.insert_build_params (make_verify_build_data uuid now payload) = .error e) :
    verify_async db uuid now payload =
      { output := .response .INTERNAL_SERVER_ERROR (.error
          { status := .Error
            error := "An unforeseen database error has occurred, preventing the initiation of the build process. Kindly try again after some time." })
        inserted := none
        spawned := none } ∧
    StatusCode.statusClass .INTERNAL_SERVER_ERROR = .serverError := by
  refine ⟨?_, rfl⟩
  rw [dispatch_of_no_reusable db uuid now payload hdup]
  simp [insert_and_dispatch, hins]

/-- C6 witness: empty store, insert fails. -/
theorem insert_failure_internal_error_witness :
    verify_async (dbWith (.ok none) (.ok sampleVerified) (.error "disk full"))
        "u6" 0 samplePayload =
      { output := .response .INTERNAL_SERVER_ERROR (.error
          { status := .Error
            error := "An unforeseen database error has occurred, preventing the initiation of the build process. Kindly try again after some time." })
        inserted := none
        spawned := none } ∧
    StatusCode.statusClass .INTERNAL_SERVER_ERROR = .serverError :=
  insert_failure_internal_error _ "u6" 0 samplePayload "disk full" rfl rfl

/-- C7: the background completion task runs exactly one of its two
branches — on worker success it upserts the verified result and then sets
the status to Completed, on worker failure it sets the status to Failed —
and the attempted writes never depend on the store's answers, so a store
write failure is absorbed without changing the branch. -/
theorem background_completion_branches (db dbAlt : DbClient) (id : String)
    (workerResult : Except String VerifiedBuild) :
    background_task db id workerResult = background_task dbAlt id workerResult ∧
    ((∃ res, workerResult = .ok res ∧
        background_task db id workerResult =
          [BgOp.upsertVerified res, BgOp.updateStatus id (JobStatus.toString .Completed)]) ∨
     (∃ e, workerResult = .error e ∧
        background_task db id workerResult =
          [BgOp.updateStatus id (JobStatus.toString .Failed)])) := by
  cases workerResult with
  | ok res => exact ⟨rfl, Or.inl ⟨res, rfl, rfl⟩⟩
  | error e => exact ⟨rfl, Or.inr ⟨e, rfl, rfl⟩⟩

/-- C8 counterexample: a request with empty repository and empty program
identifier is not rejected — with no duplicate and a healthy store the
handler persists a job record for it, spawns the worker and returns the
accepted acknowledgment. -/
theorem empty_fields_not_rejected :
    (verify_async (dbWith (.ok none) (.ok sampleVerified) (.ok ()))
        "u8" 0 emptyPayload).spawned = some (emptyPayload, "u8") ∧
    (verify_async (dbWith (.ok none) (.ok sampleVerified) (.ok ()))
        "u8" 0 emptyPayload).inserted = some (make_verify_build_data "u8" 0 emptyPayload) ∧
    (verify_async (dbWith (.ok none) (.ok sampleVerified) (.ok ()))
        "u8" 0 emptyPayload).output =
      .response .OK (.verify
        { status := .InProgress
          request_id := "u8"
          message := "Build verification started" }) :=
  ⟨rfl, rfl, rfl⟩

/-- C8 (amended): the handler never validates emptiness — a payload with
an empty repository location or empty program identifier is processed
like any other; with no duplicate and a successful insert it creates the
job record and launches the worker. -/
theorem empty_fields_accepted (db : DbClient) (uuid : String) (now : Nat)
    (payload : SolanaProgramBuildParams)
    (hempty : payload.repository = "" ∨ payload.program_id = "")
    (hdup : lookup_unwrapped db payload = none)
    (hins : db.insert_build_params (make_verify_build_data uuid now payload) = .ok ()) :
    verify_async db uuid now payload =
      { output := .response .OK (.verify
          { status := .InProgress
            request_id := uuid
            message := "Build verification started" })
        inserted := some (make_verify_build_data uuid now payload)
        spawned := some (payload, uuid) } := by
  have hid : (make_verify_build_data uuid now payload).id = uuid := rfl
  simp [verify_async, hdup, insert_and_dispatch, hins, hid]

/-- C8 (amended) witness: the all-empty payload is accepted. -/
theorem empty_fields_accepted_witness :
    verify_async (dbWith (.ok none) (.ok sampleVerified) (.ok ())) "u8w" 0 emptyPayload =
      { output := .response .OK (.verify
          { status := .InProgress
            request_id := "u8w"
            message := "Build verification started" })
        inserted := some (make_verify_build_data "u8w" 0 emptyPayload)
        spawned := some (emptyPayload, "u8w") } :=
  empty_fields_accepted _ "u8w" 0 emptyPayload (Or.inl rfl) rfl rfl

/-- C9: a duplicate whose stored status string is none of "completed",
"in_progess" or "failed" falls through the match and is treated as no
duplicate: a fresh record with the InProgress status string is inserted
and the worker is launched. -/
theorem unknown_status_treated_as_no_duplicate (db : DbClient) (uuid : String) (now : Nat)
    (payload : SolanaProgramBuildParams) (dup : SolanaProgramBuild)
    (hfind : db.is_build_params_exists_already payload = .ok (some dup))
    (hstatus : dup.status ≠ "completed" ∧ dup.status ≠ "in_progess" ∧ dup.status ≠ "failed")
    (hins : db.insert_build_params (make_verify_build_data uuid now payload) = .ok ()) :
    verify_async db uuid now payload =
      { output := .response .OK (.verify
          { status := .InProgress
            request_id := uuid
            message := "Build verification started" })
        inserted := some (make_verify_build_data uuid now payload)
        spawned := some (payload, uuid) } ∧
    (make_verify_build_data uuid now payload).status = JobStatus.toString .InProgress := by
  refine ⟨?_, rfl⟩
  obtain ⟨h1, h2, h3⟩ := hstatus
  have hl : lookup_unwrapped db payload = some dup := by
    simp [lookup_unwrapped, hfind]
  have hid : (make_verify_build_data uuid now payload).id = uuid := rfl
  simp [verify_async, hl, h1, h2, h3, insert_and_dispatch, hins, hid]

/-- C9 witness: a duplicate with an unrecognized status string. -/
theorem unknown_status_treated_as_no_duplicate_witness :
    verify_async (dbWith (.ok (some (sampleDup "unknown"))) (.ok sampleVerified) (.ok ()))
        "u9" 0 samplePayload =
      { output := .response .OK (.verify
          { status := .InProgress
            request_id := "u9"
            message := "Build verification started" })
        inserted := some (make_verify_build_data "u9" 0 samplePayload)
        spawned := some (samplePayload, "u9") } ∧
    (make_verify_build_data "u9" 0 samplePayload).status = JobStatus.toString .InProgress :=
  unknown_status_treated_as_no_duplicate _ "u9" 0 samplePayload (sampleDup "unknown")
    rfl ⟨by decide, by decide, by decide⟩ rfl

/-- C10: for a request accepted as a new job, the tracking identifier in
the acknowledgment equals the persisted record's id and the id handed to
the spawned worker: for new jobs the response token does identify the
stored record. -/
theorem new_job_identifier_consistent (db : DbClient) (uuid : String) (now : Nat)
    (payload : SolanaProgramBuildParams)
    (hdup : reusable_duplicate (lookup_unwrapped db payload) = false)
    (hins : db.insert_build_params (make_verify_build_data uuid now payload) = .ok ()) :
    ∃ rec, (verify_async db uuid now payload).inserted = some rec ∧
      rec.id = uuid ∧
      (verify_async db uuid now payload).spawned = some (payload, uuid) ∧
      (verify_async db uuid now payload).output =
        .response .OK (.verify
          { status := .InProgress
            request_id := uuid
            message := "Build verification started" }) := by
  have hid : (make_verify_build_data uuid now payload).id = uuid := rfl
  refine ⟨make_verify_build_data uuid now payload, ?_, rfl, ?_, ?_⟩ <;>
    rw [dispatch_of_no_reusable db uuid now payload hdup] <;>
    simp [insert_and_dispatch, hins, hid]

/-- C10 witness: a fresh request on an empty store. -/
theorem new_job_identifier_consistent_witness :
    ∃ rec,
      (verify_async (dbWith (.ok none) (.ok sampleVerified) (.ok ()))
          "u10" 0 samplePayload).inserted = some rec ∧
      rec.id = "u10" ∧
      (verify_async (dbWith (.ok none) (.ok sampleVerified) (.ok ()))
          "u10" 0 samplePayload).spawned = some (samplePayload, "u10") ∧
      (verify_async (dbWith (.ok none) (.ok sampleVerified) (.ok ()))
          "u10" 0 samplePayload).output =
        .response .OK (.verify
          { status := .InProgress
            request_id := "u10"
            message := "Build verification started" }) :=
  new_job_identifier_consistent _ "u10" 0 samplePayload rfl rfl

/-- C1: the claim says a Completed duplicate with no stored verified
result yields the internal-error response; the code instead unwraps the
store's error on line 40, so the handler panics at that input. -/
theorem completed_without_result_panics :
    (verify_async (dbWith (.ok (some (sampleDup "completed"))) (.error "Record not found") (.ok ()))
        "u1" 0 samplePayload).output = .panicked := by
  decide

end VerifiedPrograms
